import Mathlib

/-!
Verification of the Vayu build orchestrator (`build.py`) against its
natural-language specification.  The relevant parts of the script are
shallowly embedded below: pure computations become Lean functions, the
file-system touched by the version bump becomes an explicit record of
optional file contents, subprocess execution becomes a world parameter
mapping argument vectors to results, and `sys.exit` paths become explicit
outcome constructors.
-/

/-! ## Python string helpers -/

/-- The complete ASCII fragment of Python `str.isspace` characters, as
stripped by `str.strip()` (build.py uses `.strip()` in `parse_version` line
883 and on the VERSION file contents, line 900): space, tab, newline,
carriage return, vertical tab, form feed, and the file/group/record/unit
separators `\x1c`-`\x1f`.  Non-ASCII Unicode whitespace (such as U+0085) is
not modelled; theorems quantifying over arbitrary inputs therefore restrict
themselves to ASCII strings. -/
def isPySpace (c : Char) : Bool :=
  c = ' ' || c = '\t' || c = '\n' || c = '\r' || c = '\x0b' || c = '\x0c'
    || c = '\x1c' || c = '\x1d' || c = '\x1e' || c = '\x1f'

/-- Model of Python `str.strip()` (no arguments): drop leading and trailing
whitespace. -/
def pyStrip (s : String) : String :=
  String.mk (((s.toList.dropWhile isPySpace).reverse.dropWhile isPySpace).reverse)

/-- Numeric value of a decimal digit character. -/
def digitVal (c : Char) : Nat := c.toNat - 48

/-- Value of a list of decimal digit characters, as computed by Python
`int(...)` on a digit string (leading zeros allowed). -/
def digitsToNat (cs : List Char) : Nat :=
  cs.foldl (fun n c => 10 * n + digitVal c) 0

/-- Model of matching `^(\d+)\.(\d+)\.(\d+)$` against a character list and
extracting the three integer groups (build.py line 883).  Because a digit is
never a dot, the greedy `\d+` is equivalent to maximal munch, so the regex is
translated as: maximal digit run, dot, maximal digit run, dot, maximal digit
run, end of input.  Python `\d` also accepts non-ASCII decimal digits, which is
not modelled (all claims are settled on ASCII inputs). -/
def scanVer (cs : List Char) : Option (Nat × Nat × Nat) :=
  if (cs.takeWhile Char.isDigit).isEmpty then none else
  match cs.dropWhile Char.isDigit with
  | [] => none
  | d1 :: r2 =>
    if d1 = '.' then
      if (r2.takeWhile Char.isDigit).isEmpty then none else
      match r2.dropWhile Char.isDigit with
      | [] => none
      | d2 :: r4 =>
        if d2 = '.' then
          if (r4.takeWhile Char.isDigit).isEmpty then none
          else if (r4.dropWhile Char.isDigit).isEmpty then
            some (digitsToNat (cs.takeWhile Char.isDigit),
                  digitsToNat (r2.takeWhile Char.isDigit),
                  digitsToNat (r4.takeWhile Char.isDigit))
          else none
        else none
    else none

/-- Model of `parse_version` (build.py lines 881-886).  The source strips the
input and matches `^(\d+)\.(\d+)\.(\d+)$`; on failure it calls `print_error`,
which exits the process — modelled as `none`. -/
def parse_version (s : String) : Option (Nat × Nat × Nat) :=
  scanVer (pyStrip s).toList

/-- Specification-side shape predicate, written independently of
`parse_version` for comparison with it: split the characters on dots and
require exactly three nonempty all-digit groups ("three dot-separated
non-negative integers and nothing else"). -/
def splitOnDot : List Char → List (List Char)
  | [] => [[]]
  | c :: cs =>
    if c = '.' then [] :: splitOnDot cs
    else
      match splitOnDot cs with
      | [] => [[c]]
      | g :: gs => (c :: g) :: gs

/-- All characters are decimal digits. -/
def allDigits (cs : List Char) : Bool := cs.all Char.isDigit

/-- The exact `X.Y.Z` shape: three dot-separated nonempty digit groups and
nothing else. -/
def isVersionShape (cs : List Char) : Bool :=
  match splitOnDot cs with
  | [a, b, c] => !a.isEmpty && !b.isEmpty && !c.isEmpty
      && allDigits a && allDigits b && allDigits c
  | _ => false

/-! ## Version formatting and the bump computation -/

/-- `f-string` rendering of a version triple, `str(int)` on each component. -/
def verFmt (M m p : Nat) : String :=
  Nat.repr M ++ "." ++ Nat.repr m ++ "." ++ Nat.repr p

/-- The new-version computation of `bump_version` (build.py lines 904-915):
keyword targets increment one component and reset the lower ones; any other
target is taken literally after being validated by `parse_version` (whose
failure exits the process, modelled as `none`). -/
def computeNewVersion (bumpType : String) (M m p : Nat) : Option String :=
  if bumpType = "major" ∨ bumpType = "minor" ∨ bumpType = "patch" then
    if bumpType = "major" then some (verFmt (M + 1) 0 0)
    else if bumpType = "minor" then some (verFmt M (m + 1) 0)
    else some (verFmt M m (p + 1))
  else if (parse_version bumpType).isSome then some bumpType
  else none

/-! ## Regex substitution used by the real (non-dry-run) bump -/

/-- Match a literal character sequence at the head of the input, returning the
remainder. -/
def matchLit : List Char → List Char → Option (List Char)
  | [], cs => some cs
  | _, [] => none
  | l :: ls, c :: cs => if c = l then matchLit ls cs else none

/-- Match `\d+` (one or more digits, maximal munch) at the head of the input,
returning the remainder. -/
def matchDigits1 (cs : List Char) : Option (List Char) :=
  if (cs.takeWhile Char.isDigit).isEmpty then none
  else some (cs.dropWhile Char.isDigit)

/-- Match `\d+\.\d+\.\d+` at the head of the input. -/
def matchVerTriple (cs : List Char) : Option (List Char) :=
  (matchDigits1 cs).bind fun r1 =>
  (matchLit ['.'] r1).bind fun r2 =>
  (matchDigits1 r2).bind fun r3 =>
  (matchLit ['.'] r3).bind fun r4 =>
  matchDigits1 r4

/-- Match `".*"` at the head of the input — Python `.` excludes newlines and
`.*` is greedy, so the match runs from the opening quote to the last quote on
the same line (there must be one). -/
def matchQuotedToLineEnd (cs : List Char) : Option (List Char) :=
  match cs with
  | '"' :: rest =>
    let line := rest.takeWhile (fun c => c ≠ '\n')
    match line.reverse.findIdx? (fun c => c = '"') with
    | none => none
    | some j => some (rest.drop (line.length - j))
  | _ => none

/-- Left-to-right non-overlapping substitution, the semantics of `re.sub`:
at each position try the matcher; on a match emit the replacement and continue
after the matched segment, otherwise keep one character and move on.  The fuel
argument (instantiated with the input length) bounds recursion; every matcher
used below consumes at least one character, so the fuel is never exhausted
before the input is. -/
def pySubAll (m : List Char → Option (List Char)) (repl : List Char) :
    Nat → List Char → List Char
  | 0, cs => cs
  | _, [] => []
  | fuel + 1, c :: cs =>
    match m (c :: cs) with
    | some rest => repl ++ pySubAll m repl fuel rest
    | none => c :: pySubAll m repl fuel cs

/-- `re.sub` on strings (replacement contains no backreferences in the
source). -/
def pySub (m : List Char → Option (List Char)) (repl : String) (s : String) :
    String :=
  String.mk (pySubAll m repl.toList s.toList.length s.toList)

/-- The `re.sub(r'VERSION \d+\.\d+\.\d+', ...)` rewrite of CMakeLists.txt
(build.py lines 937-941). -/
def substCmake (newV : String) (content : String) : String :=
  pySub (fun cs => (matchLit ("VERSION ".toList) cs).bind matchVerTriple)
    ("VERSION " ++ newV) content

/-- Matcher for `#define VAYU_VERSION_<KEY> \d+`. -/
def matchDefineNum (key : String) (cs : List Char) : Option (List Char) :=
  (matchLit key.toList cs).bind matchDigits1

/-- Matcher for `#define VAYU_VERSION_STRING ".*"`. -/
def matchDefineStr (cs : List Char) : Option (List Char) :=
  (matchLit ("#define VAYU_VERSION_STRING ".toList) cs).bind matchQuotedToLineEnd

/-- The four `re.sub` rewrites of version.hpp (build.py lines 947-950), in
source order. -/
def substHpp (nM nm np : Nat) (newV : String) (content : String) : String :=
  let c1 := pySub (matchDefineNum "#define VAYU_VERSION_MAJOR ")
    ("#define VAYU_VERSION_MAJOR " ++ Nat.repr nM) content
  let c2 := pySub (matchDefineNum "#define VAYU_VERSION_MINOR ")
    ("#define VAYU_VERSION_MINOR " ++ Nat.repr nm) c1
  let c3 := pySub (matchDefineNum "#define VAYU_VERSION_PATCH ")
    ("#define VAYU_VERSION_PATCH " ++ Nat.repr np) c2
  pySub matchDefineStr
    ("#define VAYU_VERSION_STRING \"" ++ newV ++ "\"") c3

/-- Simplified model of the `json.loads` / set `version` / `json.dumps`
rewrite of a JSON manifest (build.py lines 955-957 and 961-963).  Python
re-serializes the whole document; no claim in this development constrains the
rewritten bytes of the JSON manifests — only whether the step is reached and
whether the file could be read at all (the read of a missing file raises
before `json.loads` runs) — so the model rewrites the version field in place
with a narrow substitution. -/
def pyJsonSetVersion (newV : String) (content : String) : String :=
  pySub (fun cs => (matchLit ("\"version\": ".toList) cs).bind matchQuotedToLineEnd)
    ("\"version\": \"" ++ newV ++ "\"") content

/-! ## The five target files and `bump_version` -/

/-- Contents of the five files rewritten by `bump_version` (build.py lines
890-894); `none` models a missing file, whose `read_text` raises. -/
structure FS where
  version : Option String
  cmakeLists : Option String
  versionHpp : Option String
  vcpkgJson : Option String
  packageJson : Option String
deriving DecidableEq

/-- Outcome of `bump_version`: the new version printed by the
`current → new` transition line (build.py line 920) if execution reached it,
whether the call completed without exiting or raising, and the final contents
of the five files. -/
structure BumpOutcome where
  displayed : Option String
  success : Bool
  fs : FS
deriving DecidableEq

/-- The write phase of a real (non-dry-run) bump (build.py lines 928-963):
VERSION, then CMakeLists.txt, then version.hpp, then vcpkg.json, then
package.json, each read (a missing file raises, halting the run with the
earlier writes kept) and rewritten in place.  `parse_version` of the already
validated new version (line 928) is retained for fidelity. -/
def bumpRealWrite (newV : String) (fs : FS) : BumpOutcome :=
  match parse_version newV with
  | none => ⟨some newV, false, fs⟩
  | some (nM, nm, np) =>
    let fs1 : FS := { fs with version := some (newV ++ "\n") }
    match fs.cmakeLists with
    | none => ⟨some newV, false, fs1⟩
    | some cm =>
      let fs2 : FS := { fs1 with cmakeLists := some (substCmake newV cm) }
      match fs.versionHpp with
      | none => ⟨some newV, false, fs2⟩
      | some hp =>
        let fs3 : FS := { fs2 with versionHpp := some (substHpp nM nm np newV hp) }
        match fs.vcpkgJson with
        | none => ⟨some newV, false, fs3⟩
        | some vc =>
          let fs4 : FS := { fs3 with vcpkgJson := some (pyJsonSetVersion newV vc) }
          match fs.packageJson with
          | none => ⟨some newV, false, fs4⟩
          | some pk =>
            ⟨some newV, true, { fs4 with packageJson := some (pyJsonSetVersion newV pk) }⟩

/-- Model of `bump_version(bump_type, project_root, dry_run)` (build.py lines
888-979): read and parse the VERSION file (missing file or parse failure exits
with nothing written), compute the new version (an invalid literal target
exits with nothing written), print the transition, and either return before
touching any file (dry run, line 926) or perform the writes. -/
def bump_version (bumpType : String) (fs : FS) (dryRun : Bool) : BumpOutcome :=
  match fs.version with
  | none => ⟨none, false, fs⟩
  | some vtext =>
    match parse_version vtext with
    | none => ⟨none, false, fs⟩
    | some (M, m, p) =>
      match computeNewVersion bumpType M m p with
      | none => ⟨none, false, fs⟩
      | some newV =>
        if dryRun then ⟨some newV, true, fs⟩
        else bumpRealWrite newV fs

/-! ## Subprocess world and the toolchain checks

The prerequisite stage is modelled on the non-Windows code paths: the
Windows-only location helpers (`find_visual_studio`, `find_cmake_windows`,
`find_pnpm_windows`, `find_vcpkg_windows`, build.py lines 181-345, and the
Windows branches of `check_tool`, lines 353-385) are outside the scope of the
claims, which concern the probe/availability logic of the standard branch
(lines 387-405) and the vcpkg handling common to all hosts. -/

/-- Result of attempting to execute an argument vector: the executable was
not found (Python raises `FileNotFoundError`), or the process exited with a
code and captured stdout/stderr. -/
inductive ExecResult where
  | notFound : ExecResult
  | exited (code : Int) (stdout : String) (stderr : String) : ExecResult
deriving DecidableEq

/-- The host environment consulted by the prerequisite stage:
`shutil.which`, subprocess execution, `os.environ.get`, and
`os.path.isdir`. -/
structure SysWorld where
  which : String → Option String
  exec : List String → ExecResult
  env : String → Option String
  isDir : String → Bool

/-- `result.stdout.split('\n')[0] if result.stdout else "installed"`
(build.py line 398): the prefix of the output before its first newline, or
the fallback when the output is empty. -/
def pyFirstLineOr (out dflt : String) : String :=
  if out = "" then dflt
  else String.mk (out.toList.takeWhile (fun c => c ≠ '\n'))

/-- Availability verdict of one tool plus the list of probe subprocesses the
check actually executed. -/
structure ToolCheck where
  ok : Bool
  info : String
  probes : List (List String)
deriving DecidableEq

/-- Model of the standard branch of `check_tool` (build.py lines 387-405):
locate the command with `shutil.which`; if found, run the version probe on the
resolved path with `check=True` — any exception (non-zero exit or vanished
executable) yields unavailable; if the probe exits 0 the tool is available and
its first stdout line (or "installed") is the display string.  The update of
the `PNPM_PATH` process global (line 401) is not modelled; `run_command`
below takes the resolved pnpm path as a world field instead. -/
def check_tool (W : SysWorld) (_name : String) (command : List String) :
    ToolCheck :=
  match command with
  | [] => ⟨false, "", []⟩
  | c0 :: rest =>
    match W.which c0 with
    | none => ⟨false, "", []⟩
    | some path =>
      let argv := path :: rest
      match W.exec argv with
      | ExecResult.notFound => ⟨false, "", [argv]⟩
      | ExecResult.exited code so _se =>
        if code = 0 then ⟨true, pyFirstLineOr so "installed", [argv]⟩
        else ⟨false, "", [argv]⟩

/-- Python truthiness-plus-isdir test of one candidate environment variable
inside `check_vcpkg` (build.py lines 415-418). -/
def envRoot (W : SysWorld) (v : String) : Option String :=
  match W.env v with
  | some r => if r = "" then none else if W.isDir r then some r else none
  | none => none

/-- `str(Path(p).parent)` for the plain POSIX paths produced by
`shutil.which` (build.py line 422). -/
def pyPathParent (p : String) : String :=
  let parts := p.splitOn "/"
  if parts.length ≤ 1 then "."
  else
    let par := String.intercalate "/" parts.dropLast
    if par = "" then "/" else par

/-- Model of the Unix branch of `check_vcpkg` (build.py lines 407-424):
`VCPKG_ROOT` then `VCPKG_INSTALLATION_ROOT` (each accepted when nonempty and a
directory), then the parent directory of `shutil.which("vcpkg")`.  No version
probe is ever executed. -/
def check_vcpkg (W : SysWorld) : Option String :=
  match envRoot W "VCPKG_ROOT" with
  | some r => some r
  | none =>
    match envRoot W "VCPKG_INSTALLATION_ROOT" with
    | some r => some r
    | none =>
      match W.which "vcpkg" with
      | some cmd => some (pyPathParent cmd)
      | none => none

/-- The status table produced by the prerequisite stage, the overall verdict
(`all_ok` false makes `check_prerequisites` exit through `print_error`), and
every probe subprocess executed during the stage. -/
structure PrereqReport where
  results : List (String × Bool × String)
  allOk : Bool
  probes : List (List String)
deriving DecidableEq

/-- The tool declaration list of `check_prerequisites` (build.py lines
428-434): CMake and Ninja always, pnpm only when the application stage is not
skipped. -/
def toolList (skipApp : Bool) : List (String × List String) :=
  [("CMake", ["cmake", "--version"]), ("Ninja", ["ninja", "--version"])] ++
    (if skipApp then [] else [("pnpm", ["pnpm", "--version"])])

/-- Model of `check_prerequisites` (build.py lines 426-480): check every
declared tool, then vcpkg separately — vcpkg is appended as available with its
root path whenever `check_vcpkg` found one, with no probe — and fail the stage
if anything is missing.  The re-export of `VCPKG_ROOT` into the process
environment (line 448) and all printing are not modelled. -/
def check_prerequisites (skipApp : Bool) (W : SysWorld) : PrereqReport :=
  let checks := (toolList skipApp).map (fun t => (t.1, check_tool W t.1 t.2))
  let toolResults := checks.map (fun c => (c.1, (c.2).ok, (c.2).info))
  let vres : String × Bool × String :=
    match check_vcpkg W with
    | some root => ("vcpkg", true, root)
    | none => ("vcpkg", false, "not found")
  { results := toolResults ++ [vres]
    allOk := (checks.all fun c => (c.2).ok) && (check_vcpkg W).isSome
    probes := (checks.map fun c => (c.2).probes).flatten }

/-! ## The command runner -/

/-- The host environment consulted by `run_command`: the platform display
name from `detect_platform`, the current value of the `PNPM_PATH` process
global, and subprocess execution. -/
structure RunWorld where
  system : String
  pnpmPath : String
  exec : List String → ExecResult

/-- Outcome of `run_command`: success with the captured output, a non-zero
exit reported through `print_command_error` together with its exit code and
output (the CommandFailure condition), or the executable-not-found path which
reports only the offending name through `print_error` and exits the process
(the CommandNotFound condition — its constructor carries no exit code). -/
inductive RunOutcome where
  | ok (output : String)
  | failed (code : Int) (output : String)
  | exitNotFound (name : String)
deriving DecidableEq

/-- The pnpm rewrite at the top of `run_command` (build.py lines 488-489):
on Windows, when pnpm was resolved to a non-default path, substitute that path
for the bare command name. -/
def effectiveCmd (W : RunWorld) (cmd : List String) : List String :=
  match cmd with
  | c0 :: rest =>
    if c0 = "pnpm" ∧ W.system = "Windows" ∧ W.pnpmPath ≠ "pnpm" then
      W.pnpmPath :: rest
    else cmd
  | [] => []

/-- Model of `run_command` (build.py lines 482-510): in verbose mode the
child's output is streamed and not captured (empty captured output), otherwise
stdout and stderr are captured and concatenated.  `check=True` turns a
non-zero exit into `CalledProcessError`, reported and returned as a failure;
`FileNotFoundError` is reported through `print_error` with the executable name
only, which exits the process. -/
def run_command (W : RunWorld) (verbose : Bool) (cmd : List String) :
    RunOutcome :=
  let c := effectiveCmd W cmd
  match W.exec c with
  | ExecResult.notFound => RunOutcome.exitNotFound (c.headD "")
  | ExecResult.exited code so se =>
    if code = 0 then RunOutcome.ok (if verbose then "" else so ++ se)
    else RunOutcome.failed code (if verbose then "" else so ++ se)

/-! ## The progress reporter (Spinner) -/

/-- ANSI codes and glyphs from the `Style` class used by `Spinner.stop`. -/
def ansiGreen : String := "\x1b[32m"

/-- ANSI reset code. -/
def ansiReset : String := "\x1b[0m"

/-- Success glyph. -/
def symCheck : String := "✓"

/-- State of a `Spinner` instance: its message, the `running` flag, and
whether a thread object is stored in `self.thread` (build.py lines 54-57).
The animation frames drawn by the background thread are not modelled; the
claims concern only the writes performed by `stop` itself. -/
structure Spinner where
  message : String
  running : Bool
  threadSet : Bool
deriving DecidableEq

/-- `Spinner.__init__` (build.py lines 54-57). -/
def Spinner.init (msg : String) : Spinner :=
  ⟨msg, false, false⟩

/-- `Spinner.start` (build.py lines 67-71): in non-verbose mode set `running`
and store a fresh thread; in verbose mode do nothing.  Writes nothing
itself. -/
def Spinner.start (verbose : Bool) (s : Spinner) : Spinner × List String :=
  if verbose then (s, [])
  else ({ s with running := true, threadSet := true }, [])

/-- The final status line written by `Spinner.stop` (build.py line 78). -/
def spinnerLine (color symbol msg : String) : String :=
  "\r  " ++ color ++ symbol ++ ansiReset ++ " " ++ msg ++ "\n"

/-- `Spinner.stop` (build.py lines 73-79): in non-verbose mode clear
`running`, join the thread if one was ever stored (the join of a dead or
never-started thread changes nothing), and unconditionally write the final
status line; in verbose mode do nothing. -/
def Spinner.stop (verbose : Bool) (symbol color : String) (s : Spinner) :
    Spinner × List String :=
  if verbose then (s, [])
  else ({ s with running := false }, [spinnerLine color symbol s.message])

/-! ## Argument handling in `main` -/

/-- The parsed command-line flags (build.py lines 1005-1014). -/
structure Args where
  dev : Bool
  prod : Bool
  engineOnly : Bool
  appOnly : Bool
  clean : Bool
  tests : Bool
  testOnly : Bool
  dryRun : Bool
  verbose : Bool
  bumpVersion : Option String
deriving DecidableEq

/-- `dev_mode = args.dev or not args.prod` (build.py line 1027). -/
def devModeOf (a : Args) : Bool := a.dev || !a.prod

/-- What `main` decides to do from the flags alone, before any stage runs
(build.py lines 1022-1042).  `configError` is `print_error`: the message is
printed and the process exits with code 1, with no pipeline stage attempted
and no subprocess spawned — the decision is a pure function of the flags. -/
inductive MainDecision where
  | doBump (target : String) (dryRun : Bool)
  | configError (msg : String)
  | pipeline (devMode skipEngine skipApp testOnly clean tests verbose : Bool)
deriving DecidableEq

/-- Model of the dispatch portion of `main` (build.py lines 1022-1042):
`--bump-version` short-circuits everything; `--test-only` forces the
application stage to be skipped and refuses `-t`; `-e` together with `-a` is
refused; otherwise the pipeline is entered with the computed configuration. -/
def mainDecision (a : Args) : MainDecision :=
  match a.bumpVersion with
  | some t => MainDecision.doBump t a.dryRun
  | none =>
    let skipEngine := a.appOnly
    let skipApp := if a.testOnly then true else a.engineOnly
    if a.testOnly && a.tests then
      MainDecision.configError
        "Cannot use --test-only with -t (tests will run automatically)"
    else if skipEngine && skipApp then
      MainDecision.configError "Cannot use -e and -a together"
    else
      MainDecision.pipeline (devModeOf a) skipEngine skipApp a.testOnly
        a.clean a.tests a.verbose

/-! ## Concrete project states and host worlds used as evaluation inputs -/

/-- A project at version 1.2.3 whose `engine/vcpkg.json` is missing: reading
it will fail after the first three files have already been rewritten. -/
def fsNoVcpkg : FS :=
  { version := some "1.2.3\n"
    cmakeLists := some "cmake_minimum_required(VERSION 3.20)\nproject(vayu VERSION 1.2.3 LANGUAGES CXX)\n"
    versionHpp := some "#define VAYU_VERSION_MAJOR 1\n#define VAYU_VERSION_MINOR 2\n#define VAYU_VERSION_PATCH 3\n#define VAYU_VERSION_STRING \"1.2.3\"\n"
    vcpkgJson := none
    packageJson := some "\x7b \"version\": \"1.2.3\" \x7d\n" }

/-- A complete project at version 1.2.3 with all five target files
present. -/
def fsFull : FS :=
  { version := some "1.2.3\n"
    cmakeLists := some "cmake_minimum_required(VERSION 3.20)\nproject(vayu VERSION 1.2.3 LANGUAGES CXX)\n"
    versionHpp := some "#define VAYU_VERSION_MAJOR 1\n#define VAYU_VERSION_MINOR 2\n#define VAYU_VERSION_PATCH 3\n#define VAYU_VERSION_STRING \"1.2.3\"\n"
    vcpkgJson := some "\x7b \"version\": \"1.2.3\" \x7d\n"
    packageJson := some "\x7b \"version\": \"1.2.3\" \x7d\n" }

/-- A host on which cmake and ninja are on PATH with working version probes,
pnpm is absent, no `vcpkg` executable is on PATH, and `VCPKG_ROOT` points at
an existing directory. -/
def demoWorld : SysWorld :=
  { which := fun t =>
      if t = "cmake" then some "/usr/bin/cmake"
      else if t = "ninja" then some "/usr/bin/ninja"
      else none
    exec := fun argv =>
      if argv = ["/usr/bin/cmake", "--version"] then
        ExecResult.exited 0 "cmake version 3.28.1\n" ""
      else if argv = ["/usr/bin/ninja", "--version"] then
        ExecResult.exited 0 "1.11.1\n" ""
      else ExecResult.notFound
    env := fun v => if v = "VCPKG_ROOT" then some "/opt/vcpkg" else none
    isDir := fun _ => true }

/-- A Linux host on which no executable exists at all. -/
def emptyRunWorld : RunWorld :=
  { system := "Linux", pnpmPath := "pnpm", exec := fun _ => ExecResult.notFound }

/-- The flag set of `python build.py -e -a`. -/
def argsEngineApp : Args :=
  { dev := false, prod := false, engineOnly := true, appOnly := true
    clean := false, tests := false, testOnly := false, dryRun := false
    verbose := false, bumpVersion := none }

/-- The flag set of `python build.py --dev --prod`. -/
def argsDevProd : Args :=
  { dev := true, prod := true, engineOnly := false, appOnly := false
    clean := false, tests := false, testOnly := false, dryRun := false
    verbose := false, bumpVersion := none }

/-! ## Theorems -/

/-- Whatever happens during the write phase, the transition line has already
displayed the new version (it is printed at build.py line 920, before the
dry-run check and before any write). -/
theorem bumpRealWrite_displayed (newV : String) (fs : FS) :
    (bumpRealWrite newV fs).displayed = some newV := by
  obtain ⟨ver, cm, hp, vc, pk⟩ := fs
  unfold bumpRealWrite
  rcases parse_version newV with _ | ⟨nM, nm, np⟩ <;>
    cases cm <;> cases hp <;> cases vc <;> cases pk <;> rfl

/-- C2: for every target and every file-system state, a dry-run version bump
displays the same computed new version as a real run would, and leaves the
content of all five target files byte-identical to before the call. -/
theorem bump_dry_run_same_version_and_frame (bt : String) (fs : FS) :
    (bump_version bt fs true).displayed = (bump_version bt fs false).displayed
      ∧ (bump_version bt fs true).fs = fs := by
  unfold bump_version
  cases hv : fs.version with
  | none => simp
  | some vtext =>
    cases hp : parse_version vtext with
    | none => simp [hp]
    | some trip =>
      obtain ⟨M, m, p⟩ := trip
      cases hc : computeNewVersion bt M m p with
      | none => simp [hp, hc]
      | some newV => simp [hp, hc, bumpRealWrite_displayed]

/-- C1: with a current version X.Y.Z parsed from the VERSION file, bumping
with keyword `patch` computes X.Y.(Z+1), `minor` computes X.(Y+1).0, `major`
computes (X+1).0.0, and any well-formed literal target is taken verbatim,
regardless of the current version. -/
theorem bump_keyword_and_literal_targets (fs : FS) (v : String) (M m p : Nat)
    (hv : fs.version = some v) (hp : parse_version v = some (M, m, p)) :
    (∀ dry, (bump_version "patch" fs dry).displayed = some (verFmt M m (p + 1)))
    ∧ (∀ dry, (bump_version "minor" fs dry).displayed = some (verFmt M (m + 1) 0))
    ∧ (∀ dry, (bump_version "major" fs dry).displayed = some (verFmt (M + 1) 0 0))
    ∧ (∀ t q dry, t ≠ "major" → t ≠ "minor" → t ≠ "patch" →
        parse_version t = some q →
        (bump_version t fs dry).displayed = some t) := by
  have hd : ∀ bt newV dry, computeNewVersion bt M m p = some newV →
      (bump_version bt fs dry).displayed = some newV := by
    intro bt newV dry hc
    unfold bump_version
    rw [hv]
    simp only [hp, hc]
    cases dry with
    | true => rfl
    | false => exact bumpRealWrite_displayed newV fs
  refine ⟨fun dry => hd _ _ dry ?_, fun dry => hd _ _ dry ?_,
    fun dry => hd _ _ dry ?_, fun t q dry h1 h2 h3 hq => hd _ _ dry ?_⟩
  · simp [computeNewVersion]
  · simp [computeNewVersion]
  · simp [computeNewVersion]
  · simp [computeNewVersion, h1, h2, h3, hq]

/-- Witness for C1 at the concrete project `fsFull` (current version 1.2.3):
a patch bump computes 1.2.4 and the literal target 9.9.9 is taken verbatim. -/
theorem bump_keyword_and_literal_targets_witness :
    (bump_version "patch" fsFull true).displayed = some "1.2.4"
    ∧ (bump_version "9.9.9" fsFull true).displayed = some "9.9.9" :=
  ⟨(bump_keyword_and_literal_targets fsFull "1.2.3\n" 1 2 3 rfl (by decide)).1 true,
   (bump_keyword_and_literal_targets fsFull "1.2.3\n" 1 2 3 rfl (by decide)).2.2.2
     "9.9.9" (9, 9, 9) true (by decide) (by decide) (by decide) (by decide)⟩

set_option maxRecDepth 100000 in
/-- C7: a real bump rewrites the files in the fixed order VERSION,
CMakeLists.txt, version.hpp, vcpkg.json, package.json with no rollback — on a
project whose `engine/vcpkg.json` is missing, the run fails at that file while
VERSION, CMakeLists.txt and version.hpp all remain rewritten to the new
version, and the later package.json is untouched. -/
theorem bump_partial_write_no_rollback :
    bump_version "patch" fsNoVcpkg false =
      ⟨some "1.2.4", false,
        { version := some "1.2.4\n"
          cmakeLists := some "cmake_minimum_required(VERSION 3.20)\nproject(vayu VERSION 1.2.4 LANGUAGES CXX)\n"
          versionHpp := some "#define VAYU_VERSION_MAJOR 1\n#define VAYU_VERSION_MINOR 2\n#define VAYU_VERSION_PATCH 4\n#define VAYU_VERSION_STRING \"1.2.4\"\n"
          vcpkgJson := none
          packageJson := some "\x7b \"version\": \"1.2.3\" \x7d\n" }⟩ := by
  decide

/-- Every character kept by `takeWhile Char.isDigit` is a digit. -/
theorem allDigits_takeWhile (l : List Char) :
    allDigits (l.takeWhile Char.isDigit) = true := by
  induction l with
  | nil => rfl
  | cons c cs ih =>
    by_cases h : Char.isDigit c
    · simp [allDigits, List.takeWhile_cons_of_pos h, h]
    · simp [allDigits, List.takeWhile_cons_of_neg h]

/-- A digit is never a dot. -/
theorem ne_dot_of_digits {a : List Char} (h : allDigits a = true) :
    ∀ c ∈ a, c ≠ '.' := by
  intro c hc he
  subst he
  have hd := (List.all_eq_true.mp h) _ hc
  exact absurd hd (by decide)

/-- `splitOnDot` never returns the empty list of groups. -/
theorem splitOnDot_ne_nil (l : List Char) : splitOnDot l ≠ [] := by
  cases l with
  | nil => simp [splitOnDot]
  | cons c cs =>
    by_cases h : c = '.'
    · simp [splitOnDot, h]
    · simp only [splitOnDot, h, if_false]
      cases splitOnDot cs <;> simp

/-- Splitting a dot-free group, a dot, and a remainder yields the group
followed by the split of the remainder. -/
theorem splitOnDot_append_dot (a r : List Char) (ha : ∀ c ∈ a, c ≠ '.') :
    splitOnDot (a ++ '.' :: r) = a :: splitOnDot r := by
  induction a with
  | nil => simp [splitOnDot]
  | cons x xs ih =>
    have hx : x ≠ '.' := ha x (by simp)
    have ih2 := ih fun c hc => ha c (by simp [hc])
    simp [splitOnDot, hx, ih2]

/-- Splitting a dot-free list yields that single group. -/
theorem splitOnDot_no_dot (a : List Char) (ha : ∀ c ∈ a, c ≠ '.') :
    splitOnDot a = [a] := by
  induction a with
  | nil => rfl
  | cons x xs ih =>
    have hx : x ≠ '.' := ha x (by simp)
    have ih2 := ih fun c hc => ha c (by simp [hc])
    simp [splitOnDot, hx, ih2]

/-- Whenever the regex scan of `parse_version` succeeds, the input really had
the exact three-group `X.Y.Z` shape. -/
theorem scanVer_some_shape {cs : List Char} {v : Nat × Nat × Nat}
    (h : scanVer cs = some v) : isVersionShape cs = true := by
  unfold scanVer at h
  split at h
  case isTrue => exact absurd h (by simp)
  case isFalse h1 =>
  split at h
  case h_1 => exact absurd h (by simp)
  case h_2 d1 r2 heq1 =>
  split at h
  case isFalse => exact absurd h (by simp)
  case isTrue hdot1 =>
  split at h
  case isTrue => exact absurd h (by simp)
  case isFalse h2 =>
  split at h
  case h_1 => exact absurd h (by simp)
  case h_2 d2 r4 heq2 =>
  split at h
  case isFalse => exact absurd h (by simp)
  case isTrue hdot2 =>
  split at h
  case isTrue => exact absurd h (by simp)
  case isFalse h3 =>
  split at h
  case isFalse => exact absurd h (by simp)
  case isTrue h4 =>
  have e3 : r4 = r4.takeWhile Char.isDigit := by
    have hnil : r4.dropWhile Char.isDigit = [] := by simpa using h4
    conv_lhs => rw [← List.takeWhile_append_dropWhile (p := Char.isDigit) (l := r4)]
    rw [hnil, List.append_nil]
  have e2 : r2 = r2.takeWhile Char.isDigit ++ '.' :: r4 := by
    conv_lhs => rw [← List.takeWhile_append_dropWhile (p := Char.isDigit) (l := r2)]
    rw [heq2, hdot2]
  have e1 : cs = cs.takeWhile Char.isDigit ++ '.' :: r2 := by
    conv_lhs => rw [← List.takeWhile_append_dropWhile (p := Char.isDigit) (l := cs)]
    rw [heq1, hdot1]
  simp only [Bool.not_eq_true] at h1 h2 h3
  rw [e1, e2, e3]
  unfold isVersionShape
  rw [splitOnDot_append_dot _ _ (ne_dot_of_digits (allDigits_takeWhile cs)),
    splitOnDot_append_dot _ _ (ne_dot_of_digits (allDigits_takeWhile r2)),
    splitOnDot_no_dot _ (ne_dot_of_digits (allDigits_takeWhile r4))]
  simp only [h1, h2, h3, allDigits_takeWhile, Bool.not_false, Bool.and_self,
    Bool.true_and, Bool.and_true]

/-- If the stripped input is not of the exact `X.Y.Z` shape, `parse_version`
fails. -/
theorem parse_version_none_of_not_shape (s : String)
    (h : isVersionShape (pyStrip s).toList = false) : parse_version s = none := by
  unfold parse_version
  cases hs : scanVer (pyStrip s).toList with
  | none => rfl
  | some v =>
    have h2 : isVersionShape (pyStrip s).data = false := h
    exact absurd (scanVer_some_shape hs) (by simp [h2])

set_option maxRecDepth 100000 in
/-- Counterexample to C5 as stated: `" 1.2.3"` is not of the exact `X.Y.Z`
shape (it carries leading whitespace), yet `parse_version` accepts it after
stripping; and `"major"` is not of the exact shape either, yet a bump invoked
with that target rewrites the files. -/
theorem parse_version_accepts_padded_input_cex :
    isVersionShape (" 1.2.3".toList) = false
    ∧ parse_version " 1.2.3" = some (1, 2, 3)
    ∧ isVersionShape ("major".toList) = false
    ∧ (bump_version "major" fsFull false).fs ≠ fsFull := by
  decide

/-- C5 (amended): for every ASCII input string that, after stripping leading
and trailing whitespace, is not of the exact `X.Y.Z` shape, `parse_version`
fails rather than coercing the input; and a bump invoked with such a target —
when it is not one of the bump keywords — exits with a parse error having
written to none of the five target files.  The ASCII hypothesis scopes the
statement to where the embedding is exact: within ASCII the model's digit and
whitespace classes coincide with Python's `\d` and `str.strip()`, while
Python additionally accepts non-ASCII decimal digits and strips non-ASCII
whitespace, which the model does not represent. -/
theorem malformed_target_parse_fails_writes_nothing
    (s : String) (fs : FS) (dry : Bool)
    (_hascii : ∀ c ∈ s.toList, c.toNat < 128)
    (h : isVersionShape (pyStrip s).toList = false)
    (h1 : s ≠ "major") (h2 : s ≠ "minor") (h3 : s ≠ "patch") :
    parse_version s = none ∧ bump_version s fs dry = ⟨none, false, fs⟩ := by
  have hp := parse_version_none_of_not_shape s h
  refine ⟨hp, ?_⟩
  unfold bump_version
  cases hv : fs.version with
  | none => rfl
  | some vtext =>
    cases hc : parse_version vtext with
    | none => simp [hc]
    | some trip =>
      obtain ⟨M, m, p⟩ := trip
      have hcn : computeNewVersion s M m p = none := by
        simp [computeNewVersion, h1, h2, h3, hp]
      simp [hc, hcn]

/-- Witness for the amended C5: `bump("1.2")` fails with a parse error and
writes nothing. -/
theorem malformed_target_parse_fails_writes_nothing_witness :
    parse_version "1.2" = none
    ∧ bump_version "1.2" fsFull false = ⟨none, false, fsFull⟩ :=
  malformed_target_parse_fails_writes_nothing "1.2" fsFull false
    (by decide) (by decide) (by decide) (by decide) (by decide)

/-- Counterexample to C3 as stated: on a host where `VCPKG_ROOT` points at an
existing directory but no probe of any vcpkg path ever runs, the prerequisite
stage reports vcpkg `available=true` — the probe list contains only the cmake
and ninja probes. -/
theorem vcpkg_available_without_probe_cex :
    (check_prerequisites false demoWorld).results =
      [("CMake", true, "cmake version 3.28.1"), ("Ninja", true, "1.11.1"),
       ("pnpm", false, ""), ("vcpkg", true, "/opt/vcpkg")]
    ∧ (check_prerequisites false demoWorld).probes =
      [["/usr/bin/cmake", "--version"], ["/usr/bin/ninja", "--version"]] := by
  decide

/-- C3 (amended): for CMake, Ninja and pnpm, `check_tool` reports
`available=true` only when a version probe was executed on the path located by
`shutil.which` and exited with code 0 (the probe is recorded in the probe
list); vcpkg, by contrast, is reported available exactly when `check_vcpkg`
found a path, with no probe. -/
theorem tool_available_requires_probe_except_vcpkg :
    (∀ (W : SysWorld) (n c0 : String) (cs : List String),
      (check_tool W n (c0 :: cs)).ok = true →
      ∃ p so se, W.which c0 = some p
        ∧ W.exec (p :: cs) = ExecResult.exited 0 so se
        ∧ (check_tool W n (c0 :: cs)).probes = [p :: cs])
    ∧ (∀ (W : SysWorld) (sk : Bool),
      (check_prerequisites sk W).results.getLast? =
        some ("vcpkg", (check_vcpkg W).isSome,
          (check_vcpkg W).getD "not found")) := by
  constructor
  · intro W n c0 cs hok
    cases hw : W.which c0 with
    | none => simp [check_tool, hw] at hok
    | some p =>
      cases he : W.exec (p :: cs) with
      | notFound => simp [check_tool, hw, he] at hok
      | exited code so se =>
        by_cases hc : code = 0
        · subst hc
          refine ⟨p, so, se, ?_, ?_, ?_⟩ <;>
            first
            | rfl
            | assumption
            | simp [check_tool, hw, he]
        · simp [check_tool, hw, he, hc] at hok
  · intro W sk
    unfold check_prerequisites
    rw [List.getLast?_concat]
    cases hv : check_vcpkg W <;> simp [hv]

/-- Witness for the amended C3: on the demo host the CMake availability
verdict comes with the located path, a zero-exit probe, and that probe
recorded. -/
theorem tool_available_requires_probe_except_vcpkg_witness :
    ∃ p so se, demoWorld.which "cmake" = some p
      ∧ demoWorld.exec (p :: ["--version"]) = ExecResult.exited 0 so se
      ∧ (check_tool demoWorld "CMake" ("cmake" :: ["--version"])).probes =
          [p :: ["--version"]] :=
  tool_available_requires_probe_except_vcpkg.1 demoWorld "CMake" "cmake"
    ["--version"] (by decide)

/-- C4: whenever the executable named by the first element of the (rewritten)
argv does not exist, `run_command` takes the distinct CommandNotFound path —
reported with the offending executable name only, with no exit code in the
outcome — and never the generic CommandFailure outcome. -/
theorem run_command_not_found_distinct (W : RunWorld) (v : Bool) (c0 : String)
    (cs : List String) (hid : effectiveCmd W (c0 :: cs) = c0 :: cs)
    (hnf : W.exec (c0 :: cs) = ExecResult.notFound) :
    run_command W v (c0 :: cs) = RunOutcome.exitNotFound c0
    ∧ ∀ code out, run_command W v (c0 :: cs) ≠ RunOutcome.failed code out := by
  have h1 : run_command W v (c0 :: cs) = RunOutcome.exitNotFound c0 := by
    simp [run_command, hid, hnf]
  exact ⟨h1, fun code out => by rw [h1]; simp⟩

/-- Witness for C4: a nonexistent executable on the empty Linux host yields
exactly the not-found outcome carrying the name. -/
theorem run_command_not_found_distinct_witness :
    run_command emptyRunWorld false ["missing-tool"] =
      RunOutcome.exitNotFound "missing-tool" :=
  (run_command_not_found_distinct emptyRunWorld false "missing-tool" []
    (by decide) (by decide)).1

/-- C6: without `--bump-version` (which short-circuits the pipeline), an
invocation supplying both `-e` and `-a`, or `--test-only` together with `-t`,
is rejected as a configuration error before any stage begins —
`mainDecision` is a pure function of the flags, so no subprocess has run, and
`configError` is `print_error`, which exits with code 1. -/
theorem exclusive_flags_rejected_preflight (a : Args)
    (hb : a.bumpVersion = none)
    (h : (a.engineOnly = true ∧ a.appOnly = true)
      ∨ (a.testOnly = true ∧ a.tests = true)) :
    ∃ msg, mainDecision a = MainDecision.configError msg := by
  rcases h with ⟨h1, h2⟩ | ⟨h1, h2⟩
  · cases hto : a.testOnly <;> cases hts : a.tests <;>
      simp [mainDecision, hb, hto, hts, h1, h2]
  · simp [mainDecision, hb, h1, h2]

/-- Witness for C6: `python build.py -e -a` is rejected pre-flight. -/
theorem exclusive_flags_rejected_preflight_witness :
    ∃ msg, mainDecision argsEngineApp = MainDecision.configError msg :=
  exclusive_flags_rejected_preflight argsEngineApp rfl (Or.inl ⟨rfl, rfl⟩)

/-- Counterexample to C8 as stated: stopping a spinner that was never started
changes no state but does emit output — the final status line is written. -/
theorem spinner_stop_unstarted_emits_output_cex :
    Spinner.stop false symCheck ansiGreen (Spinner.init "Configuring CMake") =
      (Spinner.init "Configuring CMake",
        [spinnerLine ansiGreen symCheck "Configuring CMake"])
    ∧ [spinnerLine ansiGreen symCheck "Configuring CMake"] ≠ ([] : List String) := by
  decide

/-- C8 (amended): calling `stop` when the spinner was never started or is
already stopped leaves the spinner state unchanged, but in non-verbose mode
each such call (re-)emits the final status line; only in verbose mode is it a
complete no-op. -/
theorem spinner_stop_idempotent_state (v : Bool) (sym col : String)
    (s : Spinner) (h : s.running = false) :
    Spinner.stop v sym col s =
      (s, if v then [] else [spinnerLine col sym s.message]) := by
  obtain ⟨msg, r, th⟩ := s
  cases v with
  | true => rfl
  | false =>
    simp only at h
    subst h
    rfl

/-- Witness for the amended C8: stopping a never-started spinner twice in a
row leaves the state fixed while emitting the line each time. -/
theorem spinner_stop_idempotent_state_witness :
    Spinner.stop false symCheck ansiGreen (Spinner.init "Building Release") =
      (Spinner.init "Building Release",
        [spinnerLine ansiGreen symCheck "Building Release"]) :=
  spinner_stop_idempotent_state false symCheck ansiGreen
    (Spinner.init "Building Release") rfl

/-- C9: `--dev` together with `--prod` selects development mode (the `--dev`
flag wins); production mode is selected only when `--prod` is given without
`--dev` or when neither flag is given; and a conflict-free `--dev --prod`
invocation enters the pipeline in development mode. -/
theorem dev_flag_precedence (a : Args) :
    (a.dev = true ∧ a.prod = true → devModeOf a = true)
    ∧ (devModeOf a = false →
        (a.prod = true ∧ a.dev = false) ∨ (a.prod = false ∧ a.dev = false))
    ∧ (a.bumpVersion = none → a.dev = true → a.engineOnly = false →
        a.appOnly = false → a.testOnly = false →
        mainDecision a =
          MainDecision.pipeline true false false false a.clean a.tests a.verbose) := by
  refine ⟨?_, ?_, ?_⟩
  · rintro ⟨h, _⟩
    simp [devModeOf, h]
  · intro h
    cases hd : a.dev <;> cases hp : a.prod <;>
      simp [devModeOf, hd, hp] at h ⊢
  · intro hb hd he ha ht
    simp [mainDecision, hb, hd, he, ha, ht, devModeOf]

/-- Witness for C9: `python build.py --dev --prod` runs the pipeline in
development mode. -/
theorem dev_flag_precedence_witness :
    devModeOf argsDevProd = true
    ∧ mainDecision argsDevProd =
        MainDecision.pipeline true false false false false false false :=
  ⟨(dev_flag_precedence argsDevProd).1 ⟨rfl, rfl⟩,
   (dev_flag_precedence argsDevProd).2.2 rfl rfl rfl rfl rfl⟩

/-- C10: in an engine-only run the prerequisite stage checks exactly CMake,
Ninja and vcpkg — pnpm is not in the tool set, no pnpm probe runs, and the
stage verdict is determined by CMake, Ninja and vcpkg alone, so an absent
pnpm cannot fail the stage. -/
theorem engine_only_excludes_pnpm (W : SysWorld) :
    (check_prerequisites true W).results.map Prod.fst = ["CMake", "Ninja", "vcpkg"]
    ∧ (check_prerequisites true W).probes =
        (check_tool W "CMake" ["cmake", "--version"]).probes
          ++ (check_tool W "Ninja" ["ninja", "--version"]).probes
    ∧ (check_prerequisites true W).allOk =
        ((check_tool W "CMake" ["cmake", "--version"]).ok
          && (check_tool W "Ninja" ["ninja", "--version"]).ok
          && (check_vcpkg W).isSome) := by
  refine ⟨?_, ?_, ?_⟩ <;>
  · unfold check_prerequisites toolList
    cases hv : check_vcpkg W <;> simp [hv, Bool.and_assoc]
